import Mathlib

/-!
Verification of the LP8755 regulator driver (drivers/regulator/lp8755.c)
against its natural-language specification.

The driver is shallowly embedded: the chip's 8-bit register file is a
function from register address to byte value, the regmap primitives
(`regmap_read` / `regmap_write` / `regmap_update_bits`) become pure
state-passing functions, and the interrupt handler / lifecycle loops are
rendered as functions producing explicit traces of bus and framework
actions.  Machine integers are `Nat` (registers are 8-bit wide,
`val_bits = 8` in `lp8755_regmap`); masked arithmetic is written with
explicit `&&&` / `|||` / `^^^` as in the C source.
-/

namespace LP8755

/-- The chip's register file: one byte value per 8-bit register address
(`reg_bits = 8`, `val_bits = 8` in `lp8755_regmap`). -/
def Regs : Type := Nat → Nat

/-- `regmap_read`: read a single register (success path). -/
def readReg (st : Regs) (r : Nat) : Nat := st r

/-- `regmap_write`: write a single register. -/
def writeReg (st : Regs) (r : Nat) (v : Nat) : Regs :=
  fun x => if x = r then v else st x

/-- `regmap_update_bits` (read-modify-write): read the current byte, clear
the masked bits, OR in `val &&& mask`, write back.  The complement of the
mask is taken within the 8-bit register width (`0xFF ^^^ mask`). -/
def updateBits (st : Regs) (r mask v : Nat) : Regs :=
  writeReg st r ((readReg st r &&& (0xFF ^^^ mask)) ||| (v &&& mask))

/-! ### Register layout constants, from the top of lp8755.c -/

/-- `LP8755_REG_BUCK0..5`: the per-buck enable/voltage register address
table (`#define LP8755_REG_BUCK0 0x00`, `BUCK1 0x03`, `BUCK2 0x04`,
`BUCK3 0x01`, `BUCK4 0x05`, `BUCK5 0x02`). -/
def LP8755_REG_BUCK (id : Nat) : Nat :=
  [0x00, 0x03, 0x04, 0x01, 0x05, 0x02].getD id 0

/-- `LP8755_BUCK_EN_M = BIT(7)`. -/
def LP8755_BUCK_EN_M : Nat := 0x80

/-- `LP8755_BUCK_LINEAR_OUT_MAX = 0x76`. -/
def LP8755_BUCK_LINEAR_OUT_MAX : Nat := 0x76

/-- `LP8755_BUCK_VOUT_M = 0x7F`. -/
def LP8755_BUCK_VOUT_M : Nat := 0x7F

/-- `LP8755_BUCK_MAX = 6` (from the `lp8755_bucks` enum in
linux/platform_data/lp8755.h: BUCK0..BUCK5 then LP8755_BUCK_MAX). -/
def LP8755_BUCK_MAX : Nat := 6

/-- `n_voltages = LP8755_BUCK_LINEAR_OUT_MAX + 1` in each
`lp8755_buck_desc`. -/
def n_voltages : Nat := LP8755_BUCK_LINEAR_OUT_MAX + 1

/-- Regulator mode constants from linux/regulator/consumer.h. -/
def REGULATOR_MODE_FAST : Nat := 0x1

def REGULATOR_MODE_NORMAL : Nat := 0x2

def REGULATOR_MODE_IDLE : Nat := 0x4

/-- Regulator notifier event constants (linux/regulator/consumer.h), as
aliased by linux/platform_data/lp8755.h: `LP8755_EVENT_PWR_FAULT =
REGULATOR_EVENT_FAIL`, `LP8755_EVENT_OCP = REGULATOR_EVENT_OVER_CURRENT`,
`LP8755_EVENT_OVP = REGULATOR_EVENT_REGULATION_OUT`. -/
def LP8755_EVENT_PWR_FAULT : Nat := 0x08

def LP8755_EVENT_OCP : Nat := 0x02

def LP8755_EVENT_OVP : Nat := 0x04

/-! ### Multi-phase topology table -/

/-- `struct lp8755_mphase`: a phase-configuration entry, the count of
active bucks and the (C array, zero-padded) list of their identifiers. -/
structure Mphase where
  nreg : Nat
  buck_num : List Nat
deriving DecidableEq, Repr

/-- `mphase_buck[MPHASE_CONF_MAX]` with `MPHASE_CONF_MAX = 9`: the fixed
topology table from lp8755.c lines 346-365. -/
def mphase_buck : List Mphase :=
  [⟨3, [0, 3, 5]⟩,
   ⟨6, [0, 1, 2, 3, 4, 5]⟩,
   ⟨5, [0, 2, 3, 4, 5]⟩,
   ⟨4, [0, 3, 4, 5]⟩,
   ⟨3, [0, 4, 5]⟩,
   ⟨2, [0, 5]⟩,
   ⟨1, [0]⟩,
   ⟨2, [0, 3]⟩,
   ⟨4, [0, 2, 3, 5]⟩]

/-- The iteration `for (icnt = 0; icnt < mp.nreg; icnt++)
buck_num[icnt]` over a topology entry; indices beyond the initializer
read the C array's zero padding (`getD _ 0`). -/
def activeBucks (mp : Mphase) : List Nat :=
  (List.range mp.nreg).map fun i => mp.buck_num.getD i 0

/-- `lp8755_init_data`'s derivation of the topology code from the byte
read at register 0x3D: `pchip->mphase = regval & 0x0F`.  No range check
follows in the C code before `mphase_buck[pchip->mphase]` is indexed. -/
def lp8755_init_data_mphase (regval : Nat) : Nat := regval &&& 0x0F

/-! ### Rail controller operations -/

/-- `lp8755_list_voltage_buck`: reject `selector >= n_voltages` with
-EINVAL (`none`), else return `500000 + 10000 * selector` microvolts. -/
def lp8755_list_voltage_buck (selector : Nat) : Option Nat :=
  if selector ≥ n_voltages then none
  else some (500000 + 10000 * selector)

/-- `ffs` (find first set, 1-based; 0 for input 0) on a 32-bit C `int`,
as used by `lp8755_set_voltage_buck_sel` on `vsel_mask`. -/
def ffs (x : Nat) : Nat :=
  match (List.range 32).find? (fun i => x.testBit i) with
  | some i => i + 1
  | none => 0

/-- `lp8755_set_voltage_buck_sel`: shift the selector by
`ffs(vsel_mask) - 1` and masked-update the buck's `vsel_reg`
(`LP8755_REG_BUCK id`, shared with the enable bit) under `vsel_mask`.
The C function itself performs no selector range check. -/
def lp8755_set_voltage_buck_sel (st : Regs) (id : Nat) (sel : Nat) : Regs :=
  updateBits st (LP8755_REG_BUCK id) LP8755_BUCK_VOUT_M
    (sel <<< (ffs LP8755_BUCK_VOUT_M - 1))

/-- Modelled from the spec: the rail-registration framework's set-voltage
path (regulator core, code of this repository not under src/) validates a
selector against the rail's selector range (the descriptor's voltage
count, here `n_voltages = 119`) and rejects an out-of-range selector with
`InvalidSelector` (-EINVAL, `none`) without performing any register
transaction; in range, it invokes the driver's
`lp8755_set_voltage_buck_sel`. -/
def set_voltage (st : Regs) (id : Nat) (sel : Nat) : Option Regs :=
  if sel ≥ n_voltages then none
  else some (lp8755_set_voltage_buck_sel st id sel)

/-- The ramp-rate switch of `lp8755_buck_set_ramp` (lp8755.c lines
210-239): map microvolt-per-microsecond input to a 3-bit hardware code,
`none` (-EINVAL) outside `0 .. 30000`.  The input is a C `int`, so it is
embedded as `Int` (negative inputs fall to the default arm). -/
def ramp_to_regval (ramp : Int) : Option Nat :=
  if 0 ≤ ramp ∧ ramp ≤ 230 then some 0x07
  else if 231 ≤ ramp ∧ ramp ≤ 470 then some 0x06
  else if 471 ≤ ramp ∧ ramp ≤ 940 then some 0x05
  else if 941 ≤ ramp ∧ ramp ≤ 1900 then some 0x04
  else if 1901 ≤ ramp ∧ ramp ≤ 3800 then some 0x03
  else if 3801 ≤ ramp ∧ ramp ≤ 7500 then some 0x02
  else if 7501 ≤ ramp ∧ ramp ≤ 15000 then some 0x01
  else if 15001 ≤ ramp ∧ ramp ≤ 30000 then some 0x00
  else none

/-- `lp8755_buck_set_ramp`: on a valid input, write the 3-bit code into
the low field of register `0x07 + id`; on an invalid input return -EINVAL
(`none`) before any bus transaction. -/
def lp8755_buck_set_ramp (st : Regs) (id : Nat) (ramp : Int) : Option Regs :=
  (ramp_to_regval ramp).map fun rv => updateBits st (0x07 + id) 0x07 rv

/-- `lp8755_buck_set_mode` (no bus errors): FAST sets the rail's bit in
the global forced-pwm register 0x06; NORMAL clears bit 0x20 of the
per-rail register `0x08 + id` then clears the rail's 0x06 bit; IDLE sets
bit 0x20 of `0x08 + id` and bit 0x01 of register 0x10 then clears the
rail's 0x06 bit; any other mode falls back to the FAST behaviour. -/
def lp8755_buck_set_mode (st : Regs) (id : Nat) (mode : Nat) : Regs :=
  if mode = REGULATOR_MODE_FAST then
    updateBits st 0x06 (0x01 <<< id) (0x01 <<< id)
  else if mode = REGULATOR_MODE_NORMAL then
    updateBits (updateBits st (0x08 + id) 0x20 0x00) 0x06 (0x01 <<< id) 0x00
  else if mode = REGULATOR_MODE_IDLE then
    updateBits
      (updateBits (updateBits st (0x08 + id) 0x20 0x20) 0x10 0x01 0x01)
      0x06 (0x01 <<< id) 0x00
  else
    updateBits st 0x06 (0x01 <<< id) (0x01 <<< id)

/-- `lp8755_buck_get_mode` (no bus errors): bit `id` of register 0x06 set
means FAST; else bit 0x20 of register `0x08 + id` set means IDLE; else
NORMAL. -/
def lp8755_buck_get_mode (st : Regs) (id : Nat) : Nat :=
  if readReg st 0x06 &&& (0x01 <<< id) ≠ 0 then REGULATOR_MODE_FAST
  else if readReg st (0x08 + id) &&& 0x20 ≠ 0 then REGULATOR_MODE_IDLE
  else REGULATOR_MODE_NORMAL

/-- `lp8755_is_enabled_buck`: the C function declares an uninitialized
local `unsigned int reg`, calls `lp8755_read` DISCARDING its return
value, masks with `enable_mask` (0x80) and returns `!!(reg)`.  On a
failed read the local keeps its prior indeterminate contents, embedded
here as the explicit `stale` parameter; `readFails` selects the failure
path of the bus read (modelled from the spec: the bus read primitive
either returns the register byte or fails leaving the caller's output
variable untouched). -/
def lp8755_is_enabled_buck (st : Regs) (id : Nat) (readFails : Bool)
    (stale : Nat) : Bool :=
  let reg := if readFails then stale else readReg st (LP8755_REG_BUCK id)
  (reg &&& LP8755_BUCK_EN_M) != 0

/-! ### Fault/event dispatcher (interrupt handler) -/

/-- An observable action of the interrupt handler: a bus read, a bus
write, or a `regulator_notifier_call_chain` call targeting one rail with
one event code. -/
inductive Evt where
  | rd (addr v : Nat)
  | wr (addr v : Nat)
  | notify (rail : Nat) (event : Nat)
deriving DecidableEq, Repr

/-- The per-rail power-fault loop of `lp8755_irq_handler` (lines
542-548): for `icnt` in 0..5, notify rail `icnt` with
`LP8755_EVENT_PWR_FAULT` iff `flag0 & (0x4 << icnt)`,
`irqmask & (0x04 << icnt)` and `rdev[icnt] != NULL` all hold. -/
def pwrFaultLoop (flag0 m : Nat) (live : Nat → Bool) : List Evt :=
  (List.range 6).filterMap fun i =>
    if (flag0 &&& (0x4 <<< i) != 0) && (m &&& (0x04 <<< i) != 0) && live i
    then some (.notify i LP8755_EVENT_PWR_FAULT)
    else none

/-- The broadcast loop of `lp8755_irq_handler` used for OCP and OVP:
notify every rail 0..LP8755_BUCK_MAX-1 holding a live handle with the
given event. -/
def broadcastLoop (live : Nat → Bool) (ev : Nat) : List Evt :=
  (List.range LP8755_BUCK_MAX).filterMap fun i =>
    if live i then some (.notify i ev) else none

/-- `lp8755_irq_handler` on the success path (no bus errors), as the
trace of its bus and notifier actions in program order: read flag
register 0x0D, clear it, dispatch per-rail power-fault events, read flag
register 0x0E, clear it, then broadcast OCP and OVP when flagged and
unmasked.  `m` is the cached `pchip->irqmask`; `live i` states
`pchip->rdev[i] != NULL`. -/
def lp8755_irq_handler (st : Regs) (m : Nat) (live : Nat → Bool) : List Evt :=
  [Evt.rd 0x0D (readReg st 0x0D), Evt.wr 0x0D 0x00]
    ++ pwrFaultLoop (readReg st 0x0D) m live
    ++ [Evt.rd 0x0E (readReg (writeReg st 0x0D 0x00) 0x0E), Evt.wr 0x0E 0x00]
    ++ (if (readReg (writeReg st 0x0D 0x00) 0x0E &&& 0x01 != 0)
          && (m &&& 0x01 != 0)
        then broadcastLoop live LP8755_EVENT_OCP else [])
    ++ (if (readReg (writeReg st 0x0D 0x00) 0x0E &&& 0x02 != 0)
          && (m &&& 0x02 != 0)
        then broadcastLoop live LP8755_EVENT_OVP else [])

/-- The rails targeted by power-fault notifications in a trace, in
order. -/
def pwrFaultTargets (tr : List Evt) : List Nat :=
  tr.filterMap fun e =>
    match e with
    | .notify i ev => if ev = LP8755_EVENT_PWR_FAULT then some i else none
    | _ => none

/-! ### Chip lifecycle: bring-up rollback and teardown -/

/-- An observable action of the lifecycle loops: a successful
`regulator_register` for a buck, a `regulator_unregister` on a non-NULL
handle for a buck, or a bus write (the teardown output-disable writes).
`regulator_unregister(NULL)` is a no-op (modelled from the spec's rail
registration framework, code of this repository not under src/: the
framework ignores a null handle) and leaves no action. -/
inductive RegEvt where
  | register (buck : Nat)
  | unregister (buck : Nat)
  | busWrite (addr v : Nat)
deriving DecidableEq, Repr

/-- The registration loop of `lp8755_regulator_init` (lines 496-516)
followed by its `err_buck` rollback: walk the active bucks in topology
order; a failing `regulator_register` (those bucks `b` with `fails b`,
failing with errno `errFor b`) NULLs the slot and jumps to the rollback,
which calls `regulator_unregister(pchip->rdev[icnt])` for every slot
`icnt` in 0..LP8755_BUCK_MAX-1 and returns the original error.  Result:
the final `rdev` occupancy, the action trace, and `Except` the C return
value (`.ok` 0 on success). -/
def initLoop (fails : Nat → Bool) (errFor : Nat → Int) :
    List Nat → (Nat → Bool) → List RegEvt →
    (Nat → Bool) × List RegEvt × Except Int Unit
  | [], rdev, acc => (rdev, acc, .ok ())
  | b :: rest, rdev, acc =>
    if fails b then
      (rdev,
       acc ++ ((List.range LP8755_BUCK_MAX).filter rdev).map RegEvt.unregister,
       .error (errFor b))
    else
      initLoop fails errFor rest (fun i => if i = b then true else rdev i)
        (acc ++ [RegEvt.register b])

/-- `lp8755_regulator_init` for topology entry `mp`, starting from the
zero-allocated (all-NULL) `rdev` array. -/
def lp8755_regulator_init (mp : Mphase) (fails : Nat → Bool)
    (errFor : Nat → Int) : (Nat → Bool) × List RegEvt × Except Int Unit :=
  initLoop fails errFor (activeBucks mp) (fun _ => false) []

/-- `lp8755_remove` (lines 687-691), given the topology entry and the
`rdev` occupancy left by bring-up: call `regulator_unregister` on slots
`rdev[icnt]` for `icnt` in 0..nreg-1 (NULL slots leave no action), then
write 0x00 to register addresses 0..5. -/
def lp8755_remove (mp : Mphase) (rdev : Nat → Bool) : List RegEvt :=
  ((List.range mp.nreg).filter rdev).map RegEvt.unregister
    ++ (List.range 6).map fun a => RegEvt.busWrite a 0x00

/-- The `rdev` occupancy after a fully successful bring-up with topology
entry `mp`: exactly the active bucks hold live handles. -/
def rdevAfterInit (mp : Mphase) : Nat → Bool :=
  fun i => (activeBucks mp).contains i

/-! ### Helper lemmas -/

lemma and_two_pow_ne_zero_iff (x k : Nat) : x &&& 2 ^ k ≠ 0 ↔ x.testBit k := by
  rw [Nat.and_two_pow]
  cases h : x.testBit k <;> simp [h, (Nat.two_pow_pos k).ne']

lemma testBit_mask255 (i : Nat) (h : i < 8) : Nat.testBit 0xFF i = true := by
  interval_cases i <;> decide

lemma set_bit_and_ne_zero (x i : Nat) : (x ||| 2 ^ i) &&& 2 ^ i ≠ 0 := by
  rw [and_two_pow_ne_zero_iff, Nat.testBit_or, Nat.testBit_two_pow_self]
  simp

lemma clear_bit_and_zero (x i : Nat) (h : i < 8) :
    (x &&& (0xFF ^^^ 2 ^ i)) &&& 2 ^ i = 0 := by
  by_contra hne
  have h2 := (and_two_pow_ne_zero_iff _ i).mp hne
  rw [Nat.testBit_and, Nat.testBit_xor, Nat.testBit_two_pow_self,
    testBit_mask255 i h] at h2
  simp at h2

lemma updateBits_get (st : Regs) (r mask v : Nat) :
    updateBits st r mask v r = (st r &&& (0xFF ^^^ mask)) ||| (v &&& mask) := by
  simp [updateBits, writeReg, readReg]

lemma updateBits_get_ne (st : Regs) (r mask v r2 : Nat) (h : r2 ≠ r) :
    updateBits st r mask v r2 = st r2 := by
  simp [updateBits, writeReg, readReg, h]

/-! ### C1: topology codes 9..15 -/

/-- C1.  The spec requires topology resolution to fail with
`InvalidTopology` on codes 9..15.  The code does not: `lp8755_init_data`
computes `mphase = regval & 0x0F` (which can be 9..15) and indexes
`mphase_buck[mphase]` with no range check, although the table has only 9
entries (indices 0..8) — an out-of-bounds access, evaluated here at the
failing hardware byte 0x09: the derived index has no table entry. -/
theorem init_data_mphase_out_of_range :
    lp8755_init_data_mphase 0x09 = 9 ∧
    mphase_buck.length = 9 ∧
    mphase_buck[lp8755_init_data_mphase 0x09]? = none := by
  decide

/-! ### C2: teardown vs. registration order -/

/-- C2.  The spec claims `lp8755_remove` deregisters exactly the rails
registered during bring-up.  Evaluated at topology code 0 (active bucks
{0, 3, 5}) after a fully successful bring-up: the remove loop calls
`regulator_unregister(rdev[icnt])` for `icnt = 0, 1, 2` — slots 1 and 2
hold no rail, and the registered rails 3 and 5 are never deregistered.
The write-zero part of the claim does hold: remove writes 0x00 to
addresses 0..5, a permutation of the six enable-register addresses. -/
theorem remove_unregister_mismatch_code0 :
    activeBucks (mphase_buck.getD 0 ⟨0, []⟩) = [0, 3, 5] ∧
    lp8755_remove (mphase_buck.getD 0 ⟨0, []⟩)
        (rdevAfterInit (mphase_buck.getD 0 ⟨0, []⟩)) =
      [RegEvt.unregister 0, RegEvt.busWrite 0 0x00, RegEvt.busWrite 1 0x00,
       RegEvt.busWrite 2 0x00, RegEvt.busWrite 3 0x00, RegEvt.busWrite 4 0x00,
       RegEvt.busWrite 5 0x00] ∧
    RegEvt.unregister 3 ∉
      lp8755_remove (mphase_buck.getD 0 ⟨0, []⟩)
        (rdevAfterInit (mphase_buck.getD 0 ⟨0, []⟩)) ∧
    ((List.range 6).map LP8755_REG_BUCK).Perm (List.range 6) := by
  decide

/-! ### C3: ramp-rate boundary mapping -/

/-- C3 counterexample.  The claim maps input 3800 to code 0x02, but the
switch arm `case 1901 ... 3800` of `lp8755_buck_set_ramp` yields 0x03. -/
theorem ramp_3800_counterexample :
    ramp_to_regval 3800 = some 0x03 ∧
    (some 0x03 : Option Nat) ≠ some 0x02 := by
  decide

/-- C3 amended.  Boundary inputs 230, 231, 470, 471, 3800, 3801, 30000
map to codes 0x07, 0x06, 0x06, 0x05, 0x03, 0x02, 0x00 respectively, and
any input of 30001 or larger is rejected with -EINVAL. -/
theorem ramp_boundary_map :
    ramp_to_regval 230 = some 0x07 ∧
    ramp_to_regval 231 = some 0x06 ∧
    ramp_to_regval 470 = some 0x06 ∧
    ramp_to_regval 471 = some 0x05 ∧
    ramp_to_regval 3800 = some 0x03 ∧
    ramp_to_regval 3801 = some 0x02 ∧
    ramp_to_regval 30000 = some 0x00 ∧
    ∀ r : Int, 30001 ≤ r → ramp_to_regval r = none := by
  refine ⟨by decide, by decide, by decide, by decide, by decide, by decide,
    by decide, ?_⟩
  intro r hr
  unfold ramp_to_regval
  repeat rw [if_neg (by omega)]

/-- C3 witness: the rejection arm at the concrete input 30001. -/
theorem ramp_boundary_map_witness : ramp_to_regval 30001 = none :=
  ramp_boundary_map.2.2.2.2.2.2.2 30001 (by decide)

/-! ### C5: selector-to-microvolt mapping -/

/-- C5.  For selectors 0..118, `lp8755_list_voltage_buck` returns
`500000 + 10000 * selector` microvolts; selector 119 and above is
rejected with -EINVAL (`n_voltages = 0x76 + 1 = 119`). -/
theorem list_voltage_formula (s : Nat) :
    (s ≤ 118 → lp8755_list_voltage_buck s = some (500000 + 10000 * s)) ∧
    (119 ≤ s → lp8755_list_voltage_buck s = none) := by
  constructor <;> intro h <;>
    simp [lp8755_list_voltage_buck, n_voltages, LP8755_BUCK_LINEAR_OUT_MAX] <;>
    omega

/-- C5 witness: both arms at concrete selectors 118 and 119. -/
theorem list_voltage_formula_witness :
    lp8755_list_voltage_buck 118 = some (500000 + 10000 * 118) ∧
    lp8755_list_voltage_buck 119 = none :=
  ⟨(list_voltage_formula 118).1 (by decide), (list_voltage_formula 119).2 (by decide)⟩

/-! ### C9: is_enabled on a failed read -/

/-- C9 counterexample.  The claim says a failed read makes
`lp8755_is_enabled_buck` return false.  The C local `reg` is
uninitialized and the read's result is discarded, so on a failed read the
function tests whatever the local happened to hold: with actual register
contents 0 (rail genuinely disabled) but stale local contents 0x80, the
function reports the rail enabled. -/
theorem is_enabled_read_failure_counterexample :
    lp8755_is_enabled_buck (fun _ => 0) 0 true 0x80 = true := by
  decide

/-- C9 amended.  On a failed read, `lp8755_is_enabled_buck` does not
surface the error (its result channel is a plain boolean) and returns the
enable-bit (bit 7) test of the local variable's prior, indeterminate
contents — not necessarily "not enabled". -/
theorem is_enabled_read_failure_stale (st : Regs) (id : Nat) (stale : Nat) :
    lp8755_is_enabled_buck st id true stale = stale.testBit 7 := by
  have hb : stale &&& LP8755_BUCK_EN_M = (stale.testBit 7).toNat * 2 ^ 7 := by
    rw [show LP8755_BUCK_EN_M = 2 ^ 7 from rfl, Nat.and_two_pow]
  cases h : stale.testBit 7 <;> simp [lp8755_is_enabled_buck, hb, h]

/-! ### C4: set_voltage range check and masked update -/

/-- C4.  `set_voltage` with a selector ≥ 119 is rejected (-EINVAL) with
no register transaction; with a selector 0..118 it performs the single
masked update of the rail's shared enable/voltage register: the selector
(shifted by `ffs(0x7F) - 1 = 0` into the voltage field) replaces bits
6:0 while the enable bit (bit 7) is preserved. -/
theorem set_voltage_range_check (st : Regs) (id sel : Nat) :
    (119 ≤ sel → set_voltage st id sel = none) ∧
    (sel ≤ 118 → set_voltage st id sel =
      some (writeReg st (LP8755_REG_BUCK id)
        ((st (LP8755_REG_BUCK id) &&& LP8755_BUCK_EN_M) ||| sel))) := by
  constructor
  · intro h
    simp only [set_voltage, n_voltages, LP8755_BUCK_LINEAR_OUT_MAX]
    rw [if_pos (by omega)]
  · intro h
    have hmask : sel &&& LP8755_BUCK_VOUT_M = sel := by
      rw [show LP8755_BUCK_VOUT_M = 2 ^ 7 - 1 from rfl,
        Nat.and_pow_two_sub_one_eq_mod]
      omega
    simp only [set_voltage, n_voltages, LP8755_BUCK_LINEAR_OUT_MAX]
    rw [if_neg (by omega)]
    simp only [lp8755_set_voltage_buck_sel, updateBits, readReg,
      (by decide : ffs LP8755_BUCK_VOUT_M - 1 = 0), Nat.shiftLeft_zero, hmask,
      (by decide : (0xFF : Nat) ^^^ LP8755_BUCK_VOUT_M = LP8755_BUCK_EN_M)]

/-- C4 witness: rejection at selector 119 and the masked update at
selector 5 on a register holding 0x85 (enable bit set, old selector 5). -/
theorem set_voltage_range_check_witness :
    set_voltage (fun _ => 0x85 : Regs) 0 119 = none ∧
    set_voltage (fun _ => 0x85 : Regs) 0 5 =
      some (writeReg (fun _ => 0x85 : Regs) (LP8755_REG_BUCK 0)
        (((fun _ => 0x85 : Regs) (LP8755_REG_BUCK 0) &&& LP8755_BUCK_EN_M) ||| 5)) :=
  ⟨(set_voltage_range_check (fun _ => 0x85 : Regs) 0 119).1 (by decide),
   (set_voltage_range_check (fun _ => 0x85 : Regs) 0 5).2 (by decide)⟩

/-! ### C6: set_mode / get_mode round trip -/

/-- C6.  For every rail 0..5 and every register state, a successful
`lp8755_buck_set_mode` with Fast, Normal or Idle followed by
`lp8755_buck_get_mode` (no intervening writes, no bus errors) reads the
same mode back. -/
theorem set_mode_get_mode_roundtrip (st : Regs) (id : Nat) (h : id < 6) :
    lp8755_buck_get_mode (lp8755_buck_set_mode st id REGULATOR_MODE_FAST) id =
      REGULATOR_MODE_FAST ∧
    lp8755_buck_get_mode (lp8755_buck_set_mode st id REGULATOR_MODE_NORMAL) id =
      REGULATOR_MODE_NORMAL ∧
    lp8755_buck_get_mode (lp8755_buck_set_mode st id REGULATOR_MODE_IDLE) id =
      REGULATOR_MODE_IDLE := by
  have h8 : id < 8 := by omega
  have hpow := Nat.one_shiftLeft id
  have hne6 : 0x08 + id ≠ 0x06 := by omega
  have hne10 : 0x08 + id ≠ 0x10 := by omega
  refine ⟨?_, ?_, ?_⟩
  · have hset : lp8755_buck_set_mode st id REGULATOR_MODE_FAST =
        updateBits st 0x06 (0x01 <<< id) (0x01 <<< id) := by
      simp [lp8755_buck_set_mode]
    have hc : updateBits st 0x06 (0x01 <<< id) (0x01 <<< id) 0x06 &&&
        (0x01 <<< id) ≠ 0 := by
      rw [updateBits_get, Nat.and_self, hpow]
      exact set_bit_and_ne_zero _ _
    rw [hset]
    simp only [lp8755_buck_get_mode, readReg]
    rw [if_pos hc]
  · have hset : lp8755_buck_set_mode st id REGULATOR_MODE_NORMAL =
        updateBits (updateBits st (0x08 + id) 0x20 0x00) 0x06
          (0x01 <<< id) 0x00 := by
      simp [lp8755_buck_set_mode, REGULATOR_MODE_NORMAL, REGULATOR_MODE_FAST]
    have hc1 : ¬ (updateBits (updateBits st (0x08 + id) 0x20 0x00) 0x06
        (0x01 <<< id) 0x00 0x06 &&& (0x01 <<< id) ≠ 0) := by
      rw [updateBits_get, Nat.zero_and, Nat.or_zero, hpow]
      exact not_not_intro (clear_bit_and_zero _ id h8)
    have hc2 : ¬ (updateBits (updateBits st (0x08 + id) 0x20 0x00) 0x06
        (0x01 <<< id) 0x00 (0x08 + id) &&& 0x20 ≠ 0) := by
      rw [updateBits_get_ne _ _ _ _ _ hne6, updateBits_get, Nat.zero_and,
        Nat.or_zero, show (0x20 : Nat) = 2 ^ 5 from rfl]
      exact not_not_intro (clear_bit_and_zero _ 5 (by omega))
    rw [hset]
    simp only [lp8755_buck_get_mode, readReg]
    rw [if_neg hc1, if_neg hc2]
  · have hset : lp8755_buck_set_mode st id REGULATOR_MODE_IDLE =
        updateBits (updateBits (updateBits st (0x08 + id) 0x20 0x20)
          0x10 0x01 0x01) 0x06 (0x01 <<< id) 0x00 := by
      simp [lp8755_buck_set_mode, REGULATOR_MODE_IDLE, REGULATOR_MODE_NORMAL,
        REGULATOR_MODE_FAST]
    have hc1 : ¬ (updateBits (updateBits (updateBits st (0x08 + id) 0x20 0x20)
        0x10 0x01 0x01) 0x06 (0x01 <<< id) 0x00 0x06 &&& (0x01 <<< id) ≠ 0) := by
      rw [updateBits_get, Nat.zero_and, Nat.or_zero, hpow]
      exact not_not_intro (clear_bit_and_zero _ id h8)
    have hc2 : updateBits (updateBits (updateBits st (0x08 + id) 0x20 0x20)
        0x10 0x01 0x01) 0x06 (0x01 <<< id) 0x00 (0x08 + id) &&& 0x20 ≠ 0 := by
      rw [updateBits_get_ne _ _ _ _ _ hne6, updateBits_get_ne _ _ _ _ _ hne10,
        updateBits_get, Nat.and_self, show (0x20 : Nat) = 2 ^ 5 from rfl]
      exact set_bit_and_ne_zero _ _
    rw [hset]
    simp only [lp8755_buck_get_mode, readReg]
    rw [if_neg hc1, if_pos hc2]

/-- C6 witness: the round trip at rail 0 on the all-zero register
state. -/
theorem set_mode_get_mode_roundtrip_witness :
    lp8755_buck_get_mode
        (lp8755_buck_set_mode (fun _ => 0 : Regs) 0 REGULATOR_MODE_FAST) 0 =
      REGULATOR_MODE_FAST ∧
    lp8755_buck_get_mode
        (lp8755_buck_set_mode (fun _ => 0 : Regs) 0 REGULATOR_MODE_NORMAL) 0 =
      REGULATOR_MODE_NORMAL ∧
    lp8755_buck_get_mode
        (lp8755_buck_set_mode (fun _ => 0 : Regs) 0 REGULATOR_MODE_IDLE) 0 =
      REGULATOR_MODE_IDLE :=
  set_mode_get_mode_roundtrip (fun _ => 0 : Regs) 0 (by decide)

/-! ### Interrupt-handler trace lemmas -/

lemma four_shiftLeft (i : Nat) : (0x4 : Nat) <<< i = 2 ^ (2 + i) := by
  rw [Nat.shiftLeft_eq, pow_add]
  norm_num

lemma pwrFaultTargets_append (a b : List Evt) :
    pwrFaultTargets (a ++ b) = pwrFaultTargets a ++ pwrFaultTargets b :=
  List.filterMap_append a b _

lemma pwrFaultTargets_cons_notify_pwr (i : Nat) (tr : List Evt) :
    pwrFaultTargets (Evt.notify i LP8755_EVENT_PWR_FAULT :: tr) =
      i :: pwrFaultTargets tr := by
  simp [pwrFaultTargets, List.filterMap_cons]

lemma pwrFaultTargets_cons_notify_ne (i ev : Nat) (tr : List Evt)
    (h : ev ≠ LP8755_EVENT_PWR_FAULT) :
    pwrFaultTargets (Evt.notify i ev :: tr) = pwrFaultTargets tr := by
  simp [pwrFaultTargets, List.filterMap_cons, h]

lemma pwrFaultTargets_broadcast (live : Nat → Bool) (ev : Nat)
    (h : ev ≠ LP8755_EVENT_PWR_FAULT) :
    pwrFaultTargets (broadcastLoop live ev) = [] := by
  unfold broadcastLoop
  induction List.range LP8755_BUCK_MAX with
  | nil => rfl
  | cons a t ih =>
    rw [List.filterMap_cons]
    cases hla : live a
    · simpa using ih
    · simp only [if_true]
      rw [pwrFaultTargets_cons_notify_ne _ _ _ h]
      exact ih

lemma pwrFaultTargets_filterMap_if (c : Nat → Bool) (l : List Nat) :
    pwrFaultTargets (l.filterMap fun i =>
      if c i then some (Evt.notify i LP8755_EVENT_PWR_FAULT) else none) =
      l.filter c := by
  induction l with
  | nil => rfl
  | cons a t ih =>
    rw [List.filterMap_cons, List.filter_cons]
    cases hc : c a
    · simpa using ih
    · simp only [if_true]
      rw [pwrFaultTargets_cons_notify_pwr, ih]

lemma pwrFaultTargets_loop (flag0 m : Nat) (live : Nat → Bool) :
    pwrFaultTargets (pwrFaultLoop flag0 m live) =
      (List.range 6).filter fun i =>
        (flag0 &&& (0x4 <<< i) != 0) && (m &&& (0x04 <<< i) != 0) && live i :=
  pwrFaultTargets_filterMap_if _ _

/-- The power-fault targets of a full handler invocation are exactly
those of its per-rail loop: the OCP/OVP broadcasts carry different event
codes and the bus actions carry none. -/
lemma pwrFaultTargets_handler (st : Regs) (m : Nat) (live : Nat → Bool) :
    pwrFaultTargets (lp8755_irq_handler st m live) =
      pwrFaultTargets (pwrFaultLoop (st 0x0D) m live) := by
  unfold lp8755_irq_handler
  simp only [readReg, pwrFaultTargets_append]
  have hpre : pwrFaultTargets [Evt.rd 0x0D (st 0x0D), Evt.wr 0x0D 0x00] = [] :=
    rfl
  have hmid : pwrFaultTargets
      [Evt.rd 0x0E (writeReg st 0x0D 0x00 0x0E), Evt.wr 0x0E 0x00] = [] := rfl
  have hocp : pwrFaultTargets
      (if (writeReg st 0x0D 0x00 0x0E &&& 0x01 != 0) && (m &&& 0x01 != 0)
       then broadcastLoop live LP8755_EVENT_OCP else []) = [] := by
    split
    · exact pwrFaultTargets_broadcast live _ (by decide)
    · rfl
  have hovp : pwrFaultTargets
      (if (writeReg st 0x0D 0x00 0x0E &&& 0x02 != 0) && (m &&& 0x02 != 0)
       then broadcastLoop live LP8755_EVENT_OVP else []) = [] := by
    split
    · exact pwrFaultTargets_broadcast live _ (by decide)
    · rfl
  rw [hpre, hmid, hocp, hovp]
  simp

/-! ### C10: per-rail power-fault bit mapping -/

/-- C10.  A power-fault event is emitted for rail `i` iff `i < 6`, bit
`2 + i` of the byte read from status register 0x0D is set, bit `2 + i`
of the cached `irqmask` is set, and rail `i` holds a live handle; in
particular, when only bits 0 and 1 of the status byte are set (byte
masked by 0xFC is zero), no per-rail power-fault event is emitted. -/
theorem irq_pwr_fault_iff (st : Regs) (m : Nat) (live : Nat → Bool) :
    (∀ i, i ∈ pwrFaultTargets (lp8755_irq_handler st m live) ↔
      i < 6 ∧ (st 0x0D).testBit (2 + i) ∧ m.testBit (2 + i) ∧ live i = true) ∧
    (st 0x0D &&& 0xFC = 0 →
      pwrFaultTargets (lp8755_irq_handler st m live) = []) := by
  have hmem : ∀ i, i ∈ pwrFaultTargets (lp8755_irq_handler st m live) ↔
      i < 6 ∧ (st 0x0D).testBit (2 + i) ∧ m.testBit (2 + i) ∧ live i = true := by
    intro i
    rw [pwrFaultTargets_handler, pwrFaultTargets_loop, List.mem_filter,
      List.mem_range]
    constructor
    · rintro ⟨hlt, hcond⟩
      simp only [Bool.and_eq_true, bne_iff_ne, four_shiftLeft,
        and_two_pow_ne_zero_iff] at hcond
      exact ⟨hlt, hcond.1.1, hcond.1.2, hcond.2⟩
    · rintro ⟨hlt, hf, hm, hl⟩
      refine ⟨hlt, ?_⟩
      simp only [Bool.and_eq_true, bne_iff_ne, four_shiftLeft,
        and_two_pow_ne_zero_iff]
      exact ⟨⟨hf, hm⟩, hl⟩
  refine ⟨hmem, ?_⟩
  intro hz
  rw [List.eq_nil_iff_forall_not_mem]
  intro i hi
  obtain ⟨hlt, hf, -, -⟩ := (hmem i).mp hi
  have h252 : Nat.testBit 0xFC (2 + i) = true := by
    interval_cases i <;> decide
  have : (st 0x0D &&& 0xFC).testBit (2 + i) = true := by
    rw [Nat.testBit_and, hf, h252]
    rfl
  rw [hz, Nat.zero_testBit] at this
  exact Bool.false_ne_true this

/-- C10 witness: a status byte with only bits 0 and 1 set (0x03) emits no
per-rail power-fault event even with all mask bits set and all rails
live. -/
theorem irq_pwr_fault_iff_witness :
    pwrFaultTargets
      (lp8755_irq_handler (fun _ => 0x03 : Regs) 0xFF (fun _ => true)) = [] :=
  (irq_pwr_fault_iff (fun _ => 0x03 : Regs) 0xFF (fun _ => true)).2 (by decide)

/-! ### C7: single-rail power-fault scenario -/

/-- C7.  When status register 0x0D reads 0x10 (only rail 2's power-fault
bit), bit 4 of the cached interrupt mask is set and rail 2 holds a live
handle, the handler emits exactly one power-fault event, targeted at rail
2, and the trace starts with the read of 0x0D followed immediately by the
write of 0x00 back to 0x0D — before any event is dispatched. -/
theorem irq_rail2_scenario (st : Regs) (m : Nat) (live : Nat → Bool)
    (hA : st 0x0D = 0x10) (hm : m.testBit 4 = true) (hl : live 2 = true) :
    pwrFaultTargets (lp8755_irq_handler st m live) = [2] ∧
    ∃ tail, lp8755_irq_handler st m live =
      Evt.rd 0x0D 0x10 :: Evt.wr 0x0D 0x00 ::
        Evt.notify 2 LP8755_EVENT_PWR_FAULT :: tail := by
  have hm16 : (m &&& (0x04 <<< 2) != 0) = true := by
    rw [show ((0x04 : Nat) <<< 2) = 2 ^ 4 from by decide, Nat.and_two_pow, hm]
    decide
  have e0 : (((0x10 : Nat) &&& (0x4 <<< 0) != 0) && ((m &&& (0x04 <<< 0)) != 0)
      && live 0) = false := by
    rw [(by decide : (((0x10 : Nat) &&& (0x4 <<< 0)) != 0) = false),
      Bool.false_and, Bool.false_and]
  have e1 : (((0x10 : Nat) &&& (0x4 <<< 1) != 0) && ((m &&& (0x04 <<< 1)) != 0)
      && live 1) = false := by
    rw [(by decide : (((0x10 : Nat) &&& (0x4 <<< 1)) != 0) = false),
      Bool.false_and, Bool.false_and]
  have e2 : (((0x10 : Nat) &&& (0x4 <<< 2) != 0) && ((m &&& (0x04 <<< 2)) != 0)
      && live 2) = true := by
    rw [(by decide : (((0x10 : Nat) &&& (0x4 <<< 2)) != 0) = true), hm16, hl]
    decide
  have e3 : (((0x10 : Nat) &&& (0x4 <<< 3) != 0) && ((m &&& (0x04 <<< 3)) != 0)
      && live 3) = false := by
    rw [(by decide : (((0x10 : Nat) &&& (0x4 <<< 3)) != 0) = false),
      Bool.false_and, Bool.false_and]
  have e4 : (((0x10 : Nat) &&& (0x4 <<< 4) != 0) && ((m &&& (0x04 <<< 4)) != 0)
      && live 4) = false := by
    rw [(by decide : (((0x10 : Nat) &&& (0x4 <<< 4)) != 0) = false),
      Bool.false_and, Bool.false_and]
  have e5 : (((0x10 : Nat) &&& (0x4 <<< 5) != 0) && ((m &&& (0x04 <<< 5)) != 0)
      && live 5) = false := by
    rw [(by decide : (((0x10 : Nat) &&& (0x4 <<< 5)) != 0) = false),
      Bool.false_and, Bool.false_and]
  have hloop : pwrFaultLoop 0x10 m live =
      [Evt.notify 2 LP8755_EVENT_PWR_FAULT] := by
    unfold pwrFaultLoop
    rw [show List.range 6 = [0, 1, 2, 3, 4, 5] from rfl]
    simp only [List.filterMap_cons, e0, e1, e2, e3, e4, e5]
    rfl
  constructor
  · rw [pwrFaultTargets_handler, hA, hloop]
    rfl
  · refine ⟨[Evt.rd 0x0E (readReg (writeReg st 0x0D 0x00) 0x0E),
        Evt.wr 0x0E 0x00]
      ++ (if (readReg (writeReg st 0x0D 0x00) 0x0E &&& 0x01 != 0)
            && (m &&& 0x01 != 0)
          then broadcastLoop live LP8755_EVENT_OCP else [])
      ++ (if (readReg (writeReg st 0x0D 0x00) 0x0E &&& 0x02 != 0)
            && (m &&& 0x02 != 0)
          then broadcastLoop live LP8755_EVENT_OVP else []), ?_⟩
    unfold lp8755_irq_handler
    rw [show readReg st 0x0D = 0x10 from hA, hloop]
    rfl

/-- C7 witness: the scenario at the concrete state where every register
reads 0x10, mask 0x10, with rail 2 the only live rail. -/
theorem irq_rail2_scenario_witness :
    pwrFaultTargets
      (lp8755_irq_handler (fun _ => 0x10 : Regs) 0x10 (fun i => i == 2)) = [2] ∧
    ∃ tail, lp8755_irq_handler (fun _ => 0x10 : Regs) 0x10 (fun i => i == 2) =
      Evt.rd 0x0D 0x10 :: Evt.wr 0x0D 0x00 ::
        Evt.notify 2 LP8755_EVENT_PWR_FAULT :: tail :=
  irq_rail2_scenario (fun _ => 0x10 : Regs) 0x10 (fun i => i == 2) rfl
    (by decide) (by decide)

/-! ### C8: rollback on a failed rail registration -/

/-- C8.  With the six-rail topology (code 1, bucks 0..5), a registration
failure at the 4th rail (buck 3, failing with errno `e`) leaves exactly
rails 0, 1, 2 registered and then deregistered, in registration order, no
further rail registered, and bring-up returns the original error `e`. -/
theorem init_rollback_fourth_of_six (e : Int) :
    (lp8755_regulator_init (mphase_buck.getD 1 ⟨0, []⟩) (fun b => b == 3)
        (fun _ => e)).2 =
      ([RegEvt.register 0, RegEvt.register 1, RegEvt.register 2,
        RegEvt.unregister 0, RegEvt.unregister 1, RegEvt.unregister 2],
       Except.error e) := by
  rfl

end LP8755
